import Mathlib

/-!
Shallow embedding of the shuttle database provisioner
(src/provisioner/src/lib.rs and src/api/src/database.rs).

Pure data flow is translated directly; effectful collaborators are made
explicit parameters:
- the SQL executor becomes a function from raw statement text to an optional
  failure message (none = success), and the raw statements built by the code
  are returned as a list so theorems can talk about what was issued;
- the postgres catalog state (pg_roles / pg_database) becomes a `PgState`;
- the cloud RDS client becomes a `Provider` record: one modify outcome, a
  create call returning the SDK response shape, and a time-indexed describe
  oracle (the index counts describe calls, so the poll loop can observe a
  changing status);
- the unbounded poll loop in `wait_for_instance` becomes a fueled recursion
  whose fuel bounds the number of describe calls we observe; running out of
  fuel is the distinct outcome `stillPolling`;
- Rust `panic!`/`.expect`/`.unwrap` become the `Outcome.panic` constructor,
  kept separate from returned error values;
- the random password generator becomes a function of an explicit entropy
  stream, mirroring `rand` sampling of 12 alphanumeric characters.
-/

/-- Constant PRIVATE_PG_IP from src/provisioner/src/lib.rs line 22. -/
def PRIVATE_PG_IP : String := "provisioner"

/-- Constant PUBLIC_PG_IP from src/provisioner/src/lib.rs line 23. -/
def PUBLIC_PG_IP : String := "pg.shuttle.rs"

/-- Constant AWS_RDS_CLASS from src/provisioner/src/lib.rs line 25. -/
def AWS_RDS_CLASS : String := "db.t4g.micro"

/-- Constant MASTER_USERNAME from src/provisioner/src/lib.rs line 26. -/
def MASTER_USERNAME : String := "master"

/-- Constant RDS_SUBNET_GROUP from src/provisioner/src/lib.rs line 27. -/
def RDS_SUBNET_GROUP : String := "shuttle_rds"

/-- Alphabet of `rand::distributions::Alphanumeric` (62 symbols). -/
def alphanumeric_chars : List Char :=
  String.toList ("ABCDEFGHIJKLMNOPQRSTUVWXYZabcdefghijklmnopqrstuvwxyz0123456789")

/-- Embedding of `generate_password` (src/provisioner/src/lib.rs lines 239-245)
and the identical `generate_role_password` (src/api/src/database.rs lines 22-28):
twelve characters sampled from the alphanumeric alphabet, here driven by an
explicit entropy stream. -/
def generate_password (entropy : Nat → Nat) : String :=
  String.mk ((List.range 12).map (fun i => alphanumeric_chars.getD (entropy i % 62) 'A'))

/-- Modelled from the spec: the `Error` enum lives in provisioner/src/error.rs,
which is not under src/. Variants are reconstructed from their construction
sites in lib.rs (`CreateRole`, `UpdateRole`, `CreateDB`, `Plain`) and from the
spec's error taxonomy (§7), which additionally names `InvalidProjectName` for
identifier-sanitization failures. -/
inductive Error where
  | invalidProjectName
  | createRole (msg : String)
  | updateRole (msg : String)
  | createDB (msg : String)
  | plain (msg : String)
deriving DecidableEq

/-- Modelled from the spec: the question-mark conversions from SDK errors
(error.rs, not under src/) surface the provider's error detail as the fatal
`UnexpectedProviderError` of the taxonomy (§7); `Plain` is its carrier in
lib.rs. -/
def sdk_to_error (detail : String) : Error :=
  Error.plain detail

/-- Catalog state of the shared postgres cluster: the role names in pg_roles
and the database names in pg_database, as observed by the two SELECT lookups. -/
structure PgState where
  roles : List String
  databases : List String
deriving DecidableEq

/-- Raw statement text built at src/provisioner/src/lib.rs lines 87-88. -/
def create_role_query (username password : String) : String :=
  "CREATE ROLE \"" ++ username ++ "\" WITH LOGIN PASSWORD \x27" ++ password ++ "\x27"

/-- Raw statement text built at src/provisioner/src/lib.rs lines 98-99. -/
def update_role_query (username password : String) : String :=
  "ALTER ROLE \"" ++ username ++ "\" WITH LOGIN PASSWORD \x27" ++ password ++ "\x27"

/-- Raw statement text built at src/provisioner/src/lib.rs line 122. -/
def create_db_query (database_name username : String) : String :=
  "CREATE DATABASE \"" ++ database_name ++ "\" OWNER \x27" ++ username ++ "\x27"

/-- Embedding of `MyProvisioner::shared_role` (src/provisioner/src/lib.rs lines
73-107). Returns the raw statements executed together with the result. `exec`
is the SQL executor: `none` is success, `some msg` the database error text. -/
def shared_role (exec : String → Option String) (pg : PgState) (project_name : String)
    (entropy : Nat → Nat) : List String × Except Error (String × String) :=
  let username := "user-" ++ project_name
  let password := generate_password entropy
  if pg.roles.contains username = false then
    let q := create_role_query username password
    ([q], match exec q with
          | none => Except.ok (username, password)
          | some e => Except.error (Error.createRole e))
  else
    let q := update_role_query username password
    ([q], match exec q with
          | none => Except.ok (username, password)
          | some e => Except.error (Error.updateRole e))

/-- Embedding of `MyProvisioner::shared_db` (src/provisioner/src/lib.rs lines
109-130): create the database only when the catalog lookup finds none. -/
def shared_db (exec : String → Option String) (pg : PgState) (project_name username : String) :
    List String × Except Error String :=
  let database_name := "db-" ++ project_name
  if pg.databases.contains database_name = false then
    let q := create_db_query database_name username
    ([q], match exec q with
          | none => Except.ok database_name
          | some e => Except.error (Error.createDB e))
  else
    ([], Except.ok database_name)

/-- Embedding of the proto `DatabaseResponse` message (all fields are plain
strings, as used in src/provisioner/src/lib.rs lines 62-70). -/
structure DatabaseResponse where
  engine : String
  username : String
  password : String
  database_name : String
  address_private : String
  address_public : String
  port : String
deriving DecidableEq

/-- Embedding of `MyProvisioner::request_shared_db` (src/provisioner/src/lib.rs
lines 58-71): role phase, then database phase, then the response with the fixed
shared-cluster constants. -/
def request_shared_db (exec : String → Option String) (pg : PgState) (project_name : String)
    (entropy : Nat → Nat) : List String × Except Error DatabaseResponse :=
  match shared_role exec pg project_name entropy with
  | (s1, Except.error e) => (s1, Except.error e)
  | (s1, Except.ok (username, password)) =>
    match shared_db exec pg project_name username with
    | (s2, Except.error e) => (s1 ++ s2, Except.error e)
    | (s2, Except.ok database_name) =>
      (s1 ++ s2, Except.ok
        { engine := "postgres"
          username := username
          password := password
          database_name := database_name
          address_private := PRIVATE_PG_IP
          address_public := PUBLIC_PG_IP
          port := "3306" })

/-- Substring occurrence test on strings, used to state which fragments appear
in the raw statement texts the code builds. -/
def occursIn (needle hay : String) : Bool :=
  (List.range (hay.toList.length + 1)).any
    (fun i => decide ((hay.toList.drop i).take needle.toList.length = needle.toList))

/-- Embedding of the proto oneof `aws_rds::Engine`: exactly three variants,
each carrying the string payload the proto message declares. -/
inductive Engine where
  | postgres (v : String)
  | mariadb (v : String)
  | mysql (v : String)
deriving DecidableEq

/-- Modelled from the spec: the Display implementation of the engine oneof
lives in the proto crate, which is not under src/; §6 names the engines
Postgres, MySQL and MariaDB, and the managed instance is identified by
project ++ "-" ++ engine (§3). -/
def Engine.str : Engine → String
  | Engine.postgres _ => "postgres"
  | Engine.mariadb _ => "mariadb"
  | Engine.mysql _ => "mysql"

/-- Embedding of `engine_to_port` (src/provisioner/src/lib.rs lines 279-285):
an exhaustive match over the three engine variants with no default arm. -/
def engine_to_port : Engine → String
  | Engine.postgres _ => "5432"
  | Engine.mariadb _ => "3306"
  | Engine.mysql _ => "3306"

/-- Embedding of the SDK endpoint record: the address field is optional, as the
source observes via `.address.expect(...)`. -/
structure Endpoint where
  address : Option String
deriving DecidableEq

/-- Embedding of the SDK `DbInstance` shape, restricted to the fields the
source reads (endpoint, master_username, db_name, db_instance_status); each is
optional in the SDK and the source unwraps them with `.expect`. -/
structure DbInstance where
  endpoint : Option Endpoint
  master_username : Option String
  db_name : Option String
  db_instance_status : Option String
deriving DecidableEq

/-- Outcome of a call in the embedding: a returned value, a returned error, a
Rust panic (`.expect` / `.unwrap`), or fuel exhaustion of the poll loop, which
stands for the loop still running. -/
inductive Outcome (α : Type) where
  | ok (value : α)
  | err (e : Error)
  | panic (msg : String)
  | stillPolling
deriving DecidableEq

/-- Outcome of the one `modify_db_instance` call, mirroring the match at
src/provisioner/src/lib.rs lines 150-189: success, a service error of kind
DbInstanceNotFoundFault, some other service error, or another SDK error. -/
inductive ModifyResult where
  | ok
  | notFound (detail : String)
  | serviceErr (detail : String)
  | sdkErr (detail : String)
deriving DecidableEq

/-- Builder arguments of the `create_db_instance` call at
src/provisioner/src/lib.rs lines 158-170. -/
structure CreateDbInstanceParams where
  db_instance_identifier : String
  master_username : String
  master_user_password : String
  engine : String
  db_instance_class : String
  allocated_storage : Int
  backup_retention_period : Int
  publicly_accessible : Bool
  db_name : String
  db_subnet_group_name : Option String
deriving DecidableEq

/-- Outcome of the `create_db_instance` call: an SDK error (propagated by the
question mark at line 171), or a response whose `db_instance` field is
optional (unwrapped with `.expect` at line 173). -/
inductive CreateResult where
  | ok (inst : Option DbInstance)
  | err (detail : String)

/-- Provider-call events recorded by the embedding, so theorems can state which
cloud calls a provisioning run issues and in which order. -/
inductive AwsEvent where
  | modifyCall (id : String) (newPassword : String)
  | createCall (params : CreateDbInstanceParams)
deriving DecidableEq

/-- The cloud RDS client as seen by the code: the outcome of the single modify
call, the outcome of a create call as a function of its parameters, and the
describe responses indexed by how many describe calls happened before. -/
structure Provider where
  modify : ModifyResult
  create : CreateDbInstanceParams → CreateResult
  describe : Nat → Except String (Option (List DbInstance))

/-- Embedding of `wait_for_instance` (src/provisioner/src/lib.rs lines 247-277)
as a fueled recursion: `t` counts describe calls already made, the fuel bounds
how many more iterations we observe, and exhausting it yields `stillPolling`.
Each iteration fetches the instance, unwraps the optional list, the first
element and the status with the source's `.expect` panics, returns the
instance when the status equals `waitFor`, and otherwise loops. The pair's
first component is the describe-call count after the loop finishes. -/
def wait_for_instance_from (describe : Nat → Except String (Option (List DbInstance)))
    (waitFor : String) : Nat → Nat → Nat × Outcome DbInstance
  | t, 0 => (t, Outcome.stillPolling)
  | t, fuel + 1 =>
    match describe t with
    | Except.error e => (t + 1, Outcome.err (sdk_to_error e))
    | Except.ok none => (t + 1, Outcome.panic ("aws to return instances"))
    | Except.ok (some instances) =>
      match instances.head? with
      | none => (t + 1, Outcome.panic ("to find the instance just created or modified"))
      | some inst =>
        match inst.db_instance_status with
        | none => (t + 1, Outcome.panic ("instance to have a status"))
        | some status =>
          if status = waitFor then (t + 1, Outcome.ok inst)
          else wait_for_instance_from describe waitFor (t + 1) fuel

/-- Embedding of the response assembly at src/provisioner/src/lib.rs lines
194-213, after the final wait: unwrap endpoint, address, master username and
db_name in source order (each `.expect` is a panic), then build the response
with `address_private == address_public` and the engine's port. -/
def extract_response (eng : Engine) (password : String) (inst : DbInstance) :
    Outcome DatabaseResponse :=
  match inst.endpoint with
  | none => Outcome.panic ("instance to have an endpoint")
  | some ep =>
    match ep.address with
    | none => Outcome.panic ("endpoint to have an address")
    | some address =>
      match inst.master_username with
      | none => Outcome.panic ("instance to have a username")
      | some username =>
        match inst.db_name with
        | none => Outcome.panic ("instance to have a default database")
        | some dbn =>
          Outcome.ok
            { engine := eng.str
              username := username
              password := password
              database_name := dbn
              address_private := address
              address_public := address
              port := engine_to_port eng }

/-- Final phase shared by both branches of `request_aws_rds`: wait for the
"available" status (src/provisioner/src/lib.rs line 192) starting after `t`
describe calls, then assemble the response. -/
def wait_available_and_extract (p : Provider) (eng : Engine) (password : String)
    (t fuel : Nat) : Outcome DatabaseResponse :=
  match wait_for_instance_from p.describe ("available") t fuel with
  | (_, Outcome.ok inst) => extract_response eng password inst
  | (_, Outcome.err e) => Outcome.err e
  | (_, Outcome.panic m) => Outcome.panic m
  | (_, Outcome.stillPolling) => Outcome.stillPolling

/-- Embedding of `MyProvisioner::request_aws_rds` (src/provisioner/src/lib.rs
lines 132-214). Returns the provider calls issued (modify, then possibly one
create) together with the outcome: modify success waits for the
"resetting-master-credentials" status; a DbInstanceNotFoundFault service error
triggers exactly one create with the fixed builder arguments and a wait for
the "creating" status; any other modify error returns the formatted Plain
error; then both success paths wait for "available" and extract the response. -/
def request_aws_rds (p : Provider) (project_name : String) (eng : Engine)
    (entropy : Nat → Nat) (fuel : Nat) : List AwsEvent × Outcome DatabaseResponse :=
  let password := generate_password entropy
  let instance_name := project_name ++ "-" ++ eng.str
  match p.modify with
  | ModifyResult.ok =>
    ([AwsEvent.modifyCall instance_name password],
     match wait_for_instance_from p.describe ("resetting-master-credentials") 0 fuel with
     | (t1, Outcome.ok _) => wait_available_and_extract p eng password t1 fuel
     | (_, Outcome.err e) => Outcome.err e
     | (_, Outcome.panic m) => Outcome.panic m
     | (_, Outcome.stillPolling) => Outcome.stillPolling)
  | ModifyResult.notFound _ =>
    let params : CreateDbInstanceParams :=
      { db_instance_identifier := instance_name
        master_username := MASTER_USERNAME
        master_user_password := password
        engine := eng.str
        db_instance_class := AWS_RDS_CLASS
        allocated_storage := 20
        backup_retention_period := 0
        publicly_accessible := true
        db_name := eng.str
        db_subnet_group_name := some RDS_SUBNET_GROUP }
    ([AwsEvent.modifyCall instance_name password, AwsEvent.createCall params],
     match p.create params with
     | CreateResult.err detail => Outcome.err (sdk_to_error detail)
     | CreateResult.ok none => Outcome.panic ("to be able to create instance")
     | CreateResult.ok (some _) =>
       match wait_for_instance_from p.describe ("creating") 0 fuel with
       | (t1, Outcome.ok _) => wait_available_and_extract p eng password t1 fuel
       | (_, Outcome.err e) => Outcome.err e
       | (_, Outcome.panic m) => Outcome.panic m
       | (_, Outcome.stillPolling) => Outcome.stillPolling)
  | ModifyResult.serviceErr detail =>
    ([AwsEvent.modifyCall instance_name password],
     Outcome.err (Error.plain ("got unexpected error from AWS RDS service: " ++ detail)))
  | ModifyResult.sdkErr detail =>
    ([AwsEvent.modifyCall instance_name password],
     Outcome.err (Error.plain ("got unexpected error from AWS during API call: " ++ detail)))

/-- Embedding of the proto oneof `database_request::DbType`: a Shared payload
or an AwsRds message whose own oneof engine field is optional. -/
inductive DbType where
  | shared (v : Unit)
  | awsRds (engine : Option Engine)

/-- Embedding of the proto `DatabaseRequest`: the prost-generated oneof field
is an Option, which line 225 of src/provisioner/src/lib.rs unwraps. -/
structure DatabaseRequest where
  project_name : String
  db_type : Option DbType

/-- Embedding of `MyProvisioner::provision_database` (src/provisioner/src/lib.rs
lines 220-236): unwrap the optional db_type (a panic when absent), dispatch on
it, and for AwsRds expect the optional engine (a panic when absent). -/
def provision_database (exec : String → Option String) (pg : PgState) (p : Provider)
    (entropy : Nat → Nat) (fuel : Nat) (request : DatabaseRequest) :
    Outcome DatabaseResponse :=
  match request.db_type with
  | none => Outcome.panic ("called Option unwrap on a None value")
  | some (DbType.shared _) =>
    match (request_shared_db exec pg request.project_name entropy).2 with
    | Except.ok reply => Outcome.ok reply
    | Except.error e => Outcome.err e
  | some (DbType.awsRds none) => Outcome.panic ("oneof to be set")
  | some (DbType.awsRds (some eng)) =>
    (request_aws_rds p request.project_name eng entropy fuel).2

/-- Decision of whether a request's discriminators are both present: the
db_type oneof, and within AwsRds the engine oneof. -/
def discriminators_present (request : DatabaseRequest) : Bool :=
  match request.db_type with
  | none => false
  | some (DbType.shared _) => true
  | some (DbType.awsRds none) => false
  | some (DbType.awsRds (some _)) => true

/-- Test for an outcome that is a structured returned error (as opposed to a
success, a panic, or a still-running poll). -/
def is_structured_err {α : Type} : Outcome α → Bool
  | Outcome.err _ => true
  | _ => false

/-- Embedding of `DatabaseReadyInfo` as constructed at src/api/src/database.rs
line 116 (role name, role password, database name). -/
structure DatabaseReadyInfo where
  role_name : String
  role_password : String
  database_name : String
deriving DecidableEq

/-- Embedding of the api `State` (src/api/src/database.rs lines 30-34): the
project name and the memoized provisioning result. -/
structure State where
  project : String
  info : Option DatabaseReadyInfo
deriving DecidableEq

/-- Embedding of `State::request` (src/api/src/database.rs lines 45-119). When
`info` is already set the cached value is returned at once (lines 46-48) and
no statement is issued; otherwise the role is created or its password altered,
the database is created when absent, and the fresh info is memoized. The
returned triple is the updated state, the raw statements issued, and the info. -/
def State.request (s : State) (pg : PgState) (entropy : Nat → Nat) :
    State × List String × DatabaseReadyInfo :=
  match s.info with
  | some info => (s, [], info)
  | none =>
    let role_name := "user-" ++ s.project
    let role_password := generate_password entropy
    let database_name := "db-" ++ s.project
    let role_stmts :=
      if pg.roles.contains role_name = false then
        ["CREATE ROLE \"" ++ role_name ++ "\" PASSWORD \x27" ++ role_password ++ "\x27 LOGIN"]
      else
        ["ALTER ROLE \"" ++ role_name ++ "\" WITH PASSWORD \x27" ++ role_password ++ "\x27"]
    let db_stmts :=
      if pg.databases.contains database_name = false then
        ["CREATE DATABASE \"" ++ database_name ++ "\" OWNER \x27" ++ role_name ++ "\x27"]
      else []
    let info : DatabaseReadyInfo :=
      { role_name := role_name, role_password := role_password, database_name := database_name }
    ({ s with info := some info }, role_stmts ++ db_stmts, info)

/-- Username derivation of the api's managed path (src/api/src/database.rs line
128): the project name with dashes replaced by underscores. -/
def derive_username (project : String) : String :=
  String.mk (project.toList.map (fun chr => if chr = '-' then '_' else chr))

/-- Empty shared-cluster catalog: no roles, no databases. -/
def pg_empty : PgState :=
  { roles := [], databases := [] }

/-- Entropy stream that always yields 0; the generated password is twelve
copies of the first alphabet character. -/
def entropy0 : Nat → Nat := fun _ => 0

/-- Entropy stream that always yields 1. -/
def entropy1 : Nat → Nat := fun _ => 1

/-- SQL executor for which every statement succeeds. -/
def exec_ok : String → Option String := fun _ => none

/-- Describe oracle that reports the same instance status at every poll. -/
def const_describe (status : String) : Nat → Except String (Option (List DbInstance)) :=
  fun _ =>
    Except.ok (some [{ endpoint := none, master_username := none, db_name := none,
                       db_instance_status := some status }])

/-- Instance as described while its credentials are being reset. -/
def inst_resetting : DbInstance :=
  { endpoint := none, master_username := none, db_name := none,
    db_instance_status := some "resetting-master-credentials" }

/-- Instance that has reached "available" but whose describe response carries
no endpoint. -/
def inst_available_no_endpoint : DbInstance :=
  { endpoint := none, master_username := some "master", db_name := some "postgres",
    db_instance_status := some "available" }

/-- Instance that has reached "available" with an endpoint address but no
master username in the describe response. -/
def inst_available_no_username : DbInstance :=
  { endpoint := some { address := some "db.example.com" }, master_username := none,
    db_name := some "postgres", db_instance_status := some "available" }

/-- Provider whose modify succeeds and whose instance reaches "available" with
a missing endpoint. -/
def provider_missing_endpoint : Provider :=
  { modify := ModifyResult.ok
    create := fun _ => CreateResult.ok none
    describe := fun t =>
      Except.ok (some [if t = 0 then inst_resetting else inst_available_no_endpoint]) }

/-- Provider whose modify succeeds and whose instance reaches "available" with
a missing master username. -/
def provider_missing_username : Provider :=
  { modify := ModifyResult.ok
    create := fun _ => CreateResult.ok none
    describe := fun t =>
      Except.ok (some [if t = 0 then inst_resetting else inst_available_no_username]) }

/-- Provider reporting DbInstanceNotFoundFault on modify, so that the create
branch runs; describe is never consulted before the create outcome decides. -/
def provider_not_found : Provider :=
  { modify := ModifyResult.notFound "DBInstanceNotFound"
    create := fun _ => CreateResult.ok none
    describe := fun _ => Except.ok none }

/-- Provider whose modify fails with a service error of a kind other than
DbInstanceNotFoundFault. -/
def provider_service_err : Provider :=
  { modify := ModifyResult.serviceErr "boom"
    create := fun _ => CreateResult.ok none
    describe := fun _ => Except.ok none }

/-- Describe oracle of the create scenario: the first describe reports
"creating", every later one reports "available" with full endpoint, master
username and db_name. -/
def scenario_describe (addr uname dbn : String) :
    Nat → Except String (Option (List DbInstance)) :=
  fun t =>
    Except.ok (some [if t = 0 then
        { endpoint := none, master_username := none, db_name := none,
          db_instance_status := some "creating" }
      else
        { endpoint := some { address := some addr }, master_username := some uname,
          db_name := some dbn, db_instance_status := some "available" }])

/-- Master username of the create call in a recorded event list, when the
trace is a modify followed by a create. -/
def created_master_username (events : List AwsEvent) : Option String :=
  match events with
  | _ :: AwsEvent.createCall params :: _ => some params.master_username
  | _ => none

/-- Response of the first shared-provisioning call in the witness scenario. -/
def respA : DatabaseResponse :=
  { engine := "postgres", username := "user-p", password := "AAAAAAAAAAAA",
    database_name := "db-p", address_private := "provisioner",
    address_public := "pg.shuttle.rs", port := "3306" }

/-- Response of the second shared-provisioning call in the witness scenario:
identical except for the freshly generated password. -/
def respB : DatabaseResponse :=
  { respA with password := "BBBBBBBBBBBB" }

theorem strToList_append (a b : String) : (a ++ b).toList = a.toList ++ b.toList := by
  cases a; cases b; rfl

theorem occursIn_of_infix (needle hay : String) (a c : List Char)
    (h : hay.toList = a ++ needle.toList ++ c) : occursIn needle hay = true := by
  unfold occursIn
  apply List.any_eq_true.mpr
  refine ⟨a.length, List.mem_range.mpr ?_, ?_⟩
  · rw [h]
    simp only [List.length_append]
    omega
  · rw [decide_eq_true_eq, h, List.append_assoc, List.drop_left, List.take_left]

/-- C6: the engine-to-port mapping is a pure total function over exactly the
three supported engines with no fallback branch: Postgres maps to "5432",
MySQL and MariaDB map to "3306", every input maps to one of these two ports,
and "5432" is produced exactly for the Postgres variant. -/
theorem engine_to_port_total (e : Engine) (s : String) :
    engine_to_port (Engine.postgres s) = "5432" ∧
    engine_to_port (Engine.mysql s) = "3306" ∧
    engine_to_port (Engine.mariadb s) = "3306" ∧
    (engine_to_port e = "5432" ∨ engine_to_port e = "3306") ∧
    (engine_to_port e = "5432" ↔ ∃ v, e = Engine.postgres v) := by
  refine ⟨rfl, rfl, rfl, ?_, ?_⟩
  · cases e
    · exact Or.inl rfl
    · exact Or.inr rfl
    · exact Or.inr rfl
  · cases e with
    | postgres v => exact ⟨fun _ => ⟨v, rfl⟩, fun _ => rfl⟩
    | mariadb v =>
      constructor
      · intro hport
        have hlit : ("3306" : String) = "5432" := hport
        exact absurd hlit (by decide)
      · rintro ⟨w, hw⟩
        exact Engine.noConfusion hw
    | mysql v =>
      constructor
      · intro hport
        have hlit : ("3306" : String) = "5432" := hport
        exact absurd hlit (by decide)
      · rintro ⟨w, hw⟩
        exact Engine.noConfusion hw

theorem const_status_poll (status waitFor : String) (h : status ≠ waitFor) :
    ∀ fuel t, (wait_for_instance_from (const_describe status) waitFor t fuel).2
        = Outcome.stillPolling := by
  intro fuel
  induction fuel with
  | zero => intro t; rfl
  | succ n ih =>
    intro t
    show (wait_for_instance_from (const_describe status) waitFor t (n + 1)).2
        = Outcome.stillPolling
    rw [wait_for_instance_from]
    simp only [const_describe, List.head?, if_neg h]
    exact ih (t + 1)

theorem request_shared_db_ok (exec : String → Option String) (pg : PgState) (project : String)
    (entropy : Nat → Nat) (r : DatabaseResponse)
    (h : (request_shared_db exec pg project entropy).2 = Except.ok r) :
    r = { engine := "postgres"
          username := "user-" ++ project
          password := generate_password entropy
          database_name := "db-" ++ project
          address_private := PRIVATE_PG_IP
          address_public := PUBLIC_PG_IP
          port := "3306" } := by
  unfold request_shared_db shared_role shared_db at h
  by_cases hrole : pg.roles.contains ("user-" ++ project) = false <;>
    by_cases hdb : pg.databases.contains ("db-" ++ project) = false <;>
      simp only [hrole, hdb, if_true, if_false, if_pos, if_neg] at h <;>
        rcases h1 : exec (create_role_query ("user-" ++ project) (generate_password entropy)) with
          _ | m1 <;>
        rcases h2 : exec (update_role_query ("user-" ++ project) (generate_password entropy)) with
          _ | m2 <;>
        rcases h3 : exec (create_db_query ("db-" ++ project)
            ("user-" ++ project)) with _ | m3 <;>
          simp_all

theorem create_role_query_has_username (u p : String) :
    occursIn u (create_role_query u p) = true := by
  apply occursIn_of_infix u _ (("CREATE ROLE \"").toList)
      (("\" WITH LOGIN PASSWORD \x27" ++ p ++ "\x27").toList)
  simp [create_role_query, strToList_append, List.append_assoc]

theorem create_role_query_has_password (u p : String) :
    occursIn p (create_role_query u p) = true := by
  apply occursIn_of_infix p _ (("CREATE ROLE \"" ++ u ++ "\" WITH LOGIN PASSWORD \x27").toList)
      (("\x27").toList)
  simp [create_role_query, strToList_append, List.append_assoc]

theorem create_role_query_has_create (u p : String) :
    occursIn ("CREATE ROLE") (create_role_query u p) = true := by
  apply occursIn_of_infix _ _ ([])
      ((" \"" ++ u ++ "\" WITH LOGIN PASSWORD \x27" ++ p ++ "\x27").toList)
  have hsplit : ("CREATE ROLE \"" : String) = "CREATE ROLE" ++ " \"" := rfl
  simp [create_role_query, hsplit, strToList_append, List.append_assoc]

theorem create_role_query_has_login (u p : String) :
    occursIn ("LOGIN") (create_role_query u p) = true := by
  apply occursIn_of_infix _ _ (("CREATE ROLE \"" ++ u ++ "\" WITH ").toList)
      ((" PASSWORD \x27" ++ p ++ "\x27").toList)
  have hsplit : ("\" WITH LOGIN PASSWORD \x27" : String)
      = "\" WITH " ++ "LOGIN" ++ " PASSWORD \x27" := rfl
  simp [create_role_query, hsplit, strToList_append, List.append_assoc]

theorem update_role_query_has_username (u p : String) :
    occursIn u (update_role_query u p) = true := by
  apply occursIn_of_infix u _ (("ALTER ROLE \"").toList)
      (("\" WITH LOGIN PASSWORD \x27" ++ p ++ "\x27").toList)
  simp [update_role_query, strToList_append, List.append_assoc]

theorem update_role_query_has_password (u p : String) :
    occursIn p (update_role_query u p) = true := by
  apply occursIn_of_infix p _ (("ALTER ROLE \"" ++ u ++ "\" WITH LOGIN PASSWORD \x27").toList)
      (("\x27").toList)
  simp [update_role_query, strToList_append, List.append_assoc]

theorem update_role_query_has_alter (u p : String) :
    occursIn ("ALTER ROLE") (update_role_query u p) = true := by
  apply occursIn_of_infix _ _ ([])
      ((" \"" ++ u ++ "\" WITH LOGIN PASSWORD \x27" ++ p ++ "\x27").toList)
  have hsplit : ("ALTER ROLE \"" : String) = "ALTER ROLE" ++ " \"" := rfl
  simp [update_role_query, hsplit, strToList_append, List.append_assoc]

theorem update_role_query_has_password_kw (u p : String) :
    occursIn ("PASSWORD") (update_role_query u p) = true := by
  apply occursIn_of_infix _ _ (("ALTER ROLE \"" ++ u ++ "\" WITH LOGIN ").toList)
      ((" \x27" ++ p ++ "\x27").toList)
  have hsplit : ("\" WITH LOGIN PASSWORD \x27" : String)
      = "\" WITH LOGIN " ++ "PASSWORD" ++ " \x27" := rfl
  simp [update_role_query, hsplit, strToList_append, List.append_assoc]

theorem create_db_query_has_create (d u : String) :
    occursIn ("CREATE DATABASE") (create_db_query d u) = true := by
  apply occursIn_of_infix _ _ ([]) ((" \"" ++ d ++ "\" OWNER \x27" ++ u ++ "\x27").toList)
  have hsplit : ("CREATE DATABASE \"" : String) = "CREATE DATABASE" ++ " \"" := rfl
  simp [create_db_query, hsplit, strToList_append, List.append_assoc]

theorem create_db_query_has_owner (d u : String) :
    occursIn ("OWNER \x27" ++ u ++ "\x27") (create_db_query d u) = true := by
  apply occursIn_of_infix _ _ (("CREATE DATABASE \"" ++ d ++ "\" ").toList) ([])
  have hsplit : ("\" OWNER \x27" : String) = "\" " ++ "OWNER \x27" := rfl
  simp [create_db_query, hsplit, strToList_append, List.append_assoc]

/-- C1: for the adversarial project name containing a quote and statement
separators, `request_shared_db` performs no validation: it constructs and
executes a CREATE ROLE statement embedding the name verbatim and returns a
success, never the `InvalidProjectName` error the spec requires before any
statement is built. -/
theorem shared_provisioning_no_sanitization :
    occursIn ("a\x27; DROP ROLE admin;")
        (((request_shared_db exec_ok pg_empty ("a\x27; DROP ROLE admin;") entropy0).1).headD "")
      = true ∧
    occursIn ("CREATE ROLE")
        (((request_shared_db exec_ok pg_empty ("a\x27; DROP ROLE admin;") entropy0).1).headD "")
      = true ∧
    (request_shared_db exec_ok pg_empty ("a\x27; DROP ROLE admin;") entropy0).2
      = Except.ok
          { engine := "postgres", username := "user-a\x27; DROP ROLE admin;",
            password := "AAAAAAAAAAAA", database_name := "db-a\x27; DROP ROLE admin;",
            address_private := "provisioner", address_public := "pg.shuttle.rs",
            port := "3306" } := by
  refine ⟨by decide, by decide, rfl⟩

/-- C2 (amended): whenever every describe call reports a status different from
the awaited one — in particular the status "failed" — `wait_for_instance`
keeps polling for as long as fuel remains and never terminates with an error:
the loop has no failure detection. -/
theorem wait_for_instance_nonmatching_polls_forever (status waitFor : String)
    (t fuel : Nat) (h : status ≠ waitFor) :
    (wait_for_instance_from (const_describe status) waitFor t fuel).2 = Outcome.stillPolling :=
  const_status_poll status waitFor h fuel t

/-- C2 witness: after seven poll iterations against a provider permanently
reporting "failed" while "available" is awaited, the loop is still polling. -/
theorem wait_for_instance_nonmatching_polls_forever_witness :
    (wait_for_instance_from (const_describe ("failed")) ("available") 0 7).2
      = Outcome.stillPolling :=
  wait_for_instance_nonmatching_polls_forever ("failed") ("available") 0 7 (by decide)

/-- C2 counterexample: against a provider permanently reporting the status
"failed" while "available" is awaited, there is no number of poll iterations
after which `wait_for_instance` has terminated with an error — contrary to the
claim that it terminates with a fatal, non-retrying error. -/
theorem wait_for_instance_failed_cex :
    ¬ ∃ (fuel t2 : Nat) (e : Error),
        wait_for_instance_from (const_describe ("failed")) ("available") 0 fuel
          = (t2, Outcome.err e) := by
  rintro ⟨fuel, t2, e, hEq⟩
  have hstill := const_status_poll ("failed") ("available") (by decide) fuel 0
  rw [hEq] at hstill
  exact Outcome.noConfusion hstill

/-- C3: when the awaited "available" status is reached but the describe
response lacks the endpoint (respectively the master username),
`request_aws_rds` panics with the corresponding expect message instead of
returning an error value. -/
theorem request_aws_rds_panics_on_missing_fields :
    (request_aws_rds provider_missing_endpoint ("demo") (Engine.postgres "") entropy0 5).2
      = Outcome.panic ("instance to have an endpoint") ∧
    (request_aws_rds provider_missing_username ("demo") (Engine.postgres "") entropy0 5).2
      = Outcome.panic ("instance to have a username") :=
  ⟨rfl, rfl⟩

/-- C4 counterexample: the api `State::request` caches its first result: a
second call on the updated state returns the identical password — even though
a fresh generation would have produced a different one — and issues no
statement at all. -/
theorem state_request_cached_password_cex :
    ((State.request (State.request { project := "p", info := none } pg_empty entropy0).1
        pg_empty entropy1).2.2).role_password
      = ((State.request { project := "p", info := none } pg_empty entropy0).2.2).role_password ∧
    generate_password entropy1 ≠ generate_password entropy0 ∧
    (State.request (State.request { project := "p", info := none } pg_empty entropy0).1
        pg_empty entropy1).2.1 = [] := by
  refine ⟨rfl, by decide, rfl⟩

/-- C4 (amended): the provisioner's `request_shared_db` is uncached: any two
successful calls for the same project return the same username and the same
database_name, and return different passwords whenever the two fresh password
generations differ; the api `State::request`, by contrast, memoizes its first
result and repeats the same password. -/
theorem request_shared_db_regenerates (exec1 exec2 : String → Option String)
    (pg1 pg2 : PgState) (project : String) (ent1 ent2 : Nat → Nat)
    (r1 r2 : DatabaseResponse)
    (h1 : (request_shared_db exec1 pg1 project ent1).2 = Except.ok r1)
    (h2 : (request_shared_db exec2 pg2 project ent2).2 = Except.ok r2)
    (hp : generate_password ent1 ≠ generate_password ent2) :
    r1.username = r2.username ∧ r1.database_name = r2.database_name ∧
      r1.password ≠ r2.password := by
  have e1 := request_shared_db_ok exec1 pg1 project ent1 r1 h1
  have e2 := request_shared_db_ok exec2 pg2 project ent2 r2 h2
  subst e1
  subst e2
  exact ⟨rfl, rfl, hp⟩

/-- C4 witness: two concrete successful calls for project "p" with different
entropy streams return the same username and database name and different
passwords. -/
theorem request_shared_db_regenerates_witness :
    respA.username = respB.username ∧ respA.database_name = respB.database_name ∧
      respA.password ≠ respB.password :=
  request_shared_db_regenerates exec_ok exec_ok pg_empty pg_empty ("p") entropy0 entropy1
    respA respB (by rfl) (by rfl) (by decide)

/-- C5 counterexample: when the modify call reports DbInstanceNotFoundFault,
the create call of the provisioner uses the fixed master username "master"
for every project — it is not derived from the project name: the repository's
own derivation (api database.rs line 128) of "alpha-app" is "alpha_app". -/
theorem request_aws_rds_master_username_fixed_cex :
    created_master_username
        ((request_aws_rds provider_not_found ("alpha-app") (Engine.postgres "") entropy0 1).1)
      = some "master" ∧
    created_master_username
        ((request_aws_rds provider_not_found ("beta-app") (Engine.postgres "") entropy0 1).1)
      = some "master" ∧
    derive_username ("alpha-app") = "alpha_app" ∧
    ("master" : String) ≠ "alpha_app" ∧
    ("master" : String) ≠ "user-alpha-app" := by
  refine ⟨rfl, rfl, by decide, by decide, by decide⟩

/-- C5 (amended): every managed provisioning call first issues the modify
call; exactly when the modify fails with DbInstanceNotFoundFault it issues
exactly one create call — with the fixed master username "master", the freshly
generated password, the fixed class db.t4g.micro, 20 GB storage, backup
retention 0, public accessibility and the fixed subnet group shuttle_rds —
and then polls until "creating" and then "available" before assembling the
response; any other modify error, and any create error, is surfaced as the
fatal Plain error carrying the provider's detail, with no retry. -/
theorem request_aws_rds_protocol (p : Provider) (project : String) (eng : Engine)
    (entropy : Nat → Nat) (fuel : Nat) (d : String)
    (cr : CreateDbInstanceParams → CreateResult)
    (desc : Nat → Except String (Option (List DbInstance))) :
    (request_aws_rds p project eng entropy fuel).1.head?
      = some (AwsEvent.modifyCall (project ++ "-" ++ eng.str) (generate_password entropy)) ∧
    (request_aws_rds p project eng entropy fuel).1
      = (match p.modify with
         | ModifyResult.notFound _ =>
           [AwsEvent.modifyCall (project ++ "-" ++ eng.str) (generate_password entropy),
            AwsEvent.createCall
              { db_instance_identifier := project ++ "-" ++ eng.str
                master_username := "master"
                master_user_password := generate_password entropy
                engine := eng.str
                db_instance_class := "db.t4g.micro"
                allocated_storage := 20
                backup_retention_period := 0
                publicly_accessible := true
                db_name := eng.str
                db_subnet_group_name := some "shuttle_rds" }]
         | _ => [AwsEvent.modifyCall (project ++ "-" ++ eng.str) (generate_password entropy)]) ∧
    (request_aws_rds { modify := ModifyResult.serviceErr d, create := cr, describe := desc }
        project eng entropy fuel).2
      = Outcome.err (Error.plain ("got unexpected error from AWS RDS service: " ++ d)) ∧
    (request_aws_rds { modify := ModifyResult.sdkErr d, create := cr, describe := desc }
        project eng entropy fuel).2
      = Outcome.err (Error.plain ("got unexpected error from AWS during API call: " ++ d)) ∧
    (request_aws_rds { modify := ModifyResult.notFound d,
                       create := fun _ => CreateResult.err d, describe := desc }
        project eng entropy fuel).2
      = Outcome.err (Error.plain d) ∧
    (∀ (addr uname dbn : String) (i : DbInstance),
      (request_aws_rds { modify := ModifyResult.notFound d,
                         create := fun _ => CreateResult.ok (some i),
                         describe := scenario_describe addr uname dbn }
          project eng entropy 2).2
        = Outcome.ok { engine := eng.str, username := uname,
                       password := generate_password entropy, database_name := dbn,
                       address_private := addr, address_public := addr,
                       port := engine_to_port eng }) := by
  obtain ⟨m, c, ds⟩ := p
  cases m <;>
    exact ⟨rfl, rfl, rfl, rfl, rfl, fun addr uname dbn i => rfl⟩

/-- C7: each call of `shared_role` derives the username "user-" ++ project,
returns it with the freshly generated password, and issues exactly one
statement which always carries the new password: a CREATE ROLE with LOGIN when
the role is absent, an ALTER ROLE password change when it is present —
password rotation is unconditional. -/
theorem shared_role_always_rotates (exec : String → Option String) (pg : PgState)
    (project : String) (entropy : Nat → Nat) :
    (shared_role exec_ok pg project entropy).2
      = Except.ok ("user-" ++ project, generate_password entropy) ∧
    ((shared_role exec pg project entropy).1).length = 1 ∧
    occursIn ("user-" ++ project) (((shared_role exec pg project entropy).1).headD "") = true ∧
    occursIn (generate_password entropy)
        (((shared_role exec pg project entropy).1).headD "") = true ∧
    cond (pg.roles.contains ("user-" ++ project))
      (occursIn ("ALTER ROLE") (((shared_role exec pg project entropy).1).headD "") &&
        occursIn ("PASSWORD") (((shared_role exec pg project entropy).1).headD ""))
      (occursIn ("CREATE ROLE") (((shared_role exec pg project entropy).1).headD "") &&
        occursIn ("LOGIN") (((shared_role exec pg project entropy).1).headD "")) = true := by
  by_cases hm : ("user-" ++ project) ∈ pg.roles
  · simp [shared_role, hm, exec_ok, update_role_query_has_username,
      update_role_query_has_password, update_role_query_has_alter,
      update_role_query_has_password_kw]
  · simp [shared_role, hm, exec_ok, create_role_query_has_username,
      create_role_query_has_password, create_role_query_has_create,
      create_role_query_has_login]

/-- C8: `shared_db` derives the database name "db-" ++ project; when the
database is absent it issues exactly one CREATE DATABASE statement naming the
given role as owner, and when it is present it issues no statement at all; in
`request_shared_db` the role passed as owner is "user-" ++ project. -/
theorem shared_db_create_once (exec : String → Option String) (pg : PgState)
    (project username : String) (entropy : Nat → Nat) :
    (shared_db exec_ok pg project username).2 = Except.ok ("db-" ++ project) ∧
    cond (pg.databases.contains ("db-" ++ project))
      (decide ((shared_db exec pg project username).1 = []))
      (decide ((shared_db exec pg project username).1
          = [create_db_query ("db-" ++ project) username]) &&
        occursIn ("CREATE DATABASE") (((shared_db exec pg project username).1).headD "") &&
        occursIn ("OWNER \x27" ++ username ++ "\x27")
          (((shared_db exec pg project username).1).headD "")) = true ∧
    (request_shared_db exec_ok pg project entropy).1
      = (shared_role exec_ok pg project entropy).1
        ++ (shared_db exec_ok pg project ("user-" ++ project)).1 := by
  by_cases hmd : ("db-" ++ project) ∈ pg.databases <;>
    by_cases hmr : ("user-" ++ project) ∈ pg.roles <;>
      simp [shared_db, request_shared_db, shared_role, hmd, hmr, exec_ok,
        create_db_query_has_create, create_db_query_has_owner]

/-- C9: every successful `request_shared_db` response carries the same fixed
constants regardless of the project: engine "postgres", address_private
"provisioner", address_public "pg.shuttle.rs", and port "3306" — the
conventional MySQL port, although the engine is postgres. -/
theorem request_shared_db_fixed_constants (exec : String → Option String) (pg : PgState)
    (project : String) (entropy : Nat → Nat) (r : DatabaseResponse)
    (h : (request_shared_db exec pg project entropy).2 = Except.ok r) :
    r.engine = "postgres" ∧ r.address_private = "provisioner" ∧
      r.address_public = "pg.shuttle.rs" ∧ r.port = "3306" := by
  have e1 := request_shared_db_ok exec pg project entropy r h
  subst e1
  exact ⟨rfl, rfl, rfl, rfl⟩

/-- C9 witness: the concrete successful call for project "p" returns the four
fixed constants. -/
theorem request_shared_db_fixed_constants_witness :
    respA.engine = "postgres" ∧ respA.address_private = "provisioner" ∧
      respA.address_public = "pg.shuttle.rs" ∧ respA.port = "3306" :=
  request_shared_db_fixed_constants exec_ok pg_empty ("p") entropy0 respA (by rfl)

/-- C10: `provision_database` panics when the request carries no db_type, and
panics when an AwsRds request carries no engine; a structured error outcome
can only arise for requests whose both discriminators are present. -/
theorem provision_database_discriminator_behaviour
    (exec : String → Option String) (pg : PgState) (p : Provider)
    (entropy : Nat → Nat) (fuel : Nat) (project : String) (request : DatabaseRequest) :
    provision_database exec pg p entropy fuel { project_name := project, db_type := none }
      = Outcome.panic ("called Option unwrap on a None value") ∧
    provision_database exec pg p entropy fuel
        { project_name := project, db_type := some (DbType.awsRds none) }
      = Outcome.panic ("oneof to be set") ∧
    (is_structured_err (provision_database exec pg p entropy fuel request) = true →
      discriminators_present request = true) := by
  refine ⟨rfl, rfl, ?_⟩
  intro h
  rcases request with ⟨pn, dt⟩
  rcases dt with _ | dtv
  · exact Bool.noConfusion h
  · rcases dtv with v | oe
    · rfl
    · rcases oe with _ | e
      · exact Bool.noConfusion h
      · rfl

/-- C10 witness: a concrete AwsRds request with both discriminators present on
which the provisioner returns a structured error (the provider reports a
service error on modify). -/
theorem provision_database_discriminator_witness :
    discriminators_present
        { project_name := "p", db_type := some (DbType.awsRds (some (Engine.postgres ""))) }
      = true :=
  (provision_database_discriminator_behaviour exec_ok pg_empty provider_service_err
      entropy0 1 ("p")
      { project_name := "p", db_type := some (DbType.awsRds (some (Engine.postgres ""))) }).2.2
    (by rfl)
